import Mathlib

/-!
Verification development for the SparseChem model core
(`src/sparsechem/models.py`).

The Python module defines a sparse-input feed-forward network.  We embed it
shallowly: dense tensors are rows/cols plus row-major rational data, sparse
COO construction and every shape-checked tensor op return `Option`
(`none` models the backend raising), and Python `__init__` bodies become
`Except PyError` constructors (`AssertionError` for failed `assert`s,
`AttributeError` for reads of never-assigned attributes, `KeyError` for a
failed dict lookup, `IndexError` for out-of-range list indexing).
Learnable parameters are supplied externally (the code draws them from the
backend RNG), and the backend activation functions are an explicit
parameter, mirroring the fact that `nn.ReLU`/`nn.Tanh` are library code.
-/

set_option autoImplicit false

/-- Errors a Python constructor or the tensor backend can raise. -/
inductive PyError where
  | assertionError
  | attributeError
  | keyError
  | indexError
  deriving DecidableEq, Repr

/-- Dense 2-D tensor: declared shape plus row-major data. -/
structure Tensor2 where
  rows : Nat
  cols : Nat
  data : List (List ℚ)
  deriving DecidableEq, Repr

/-- Matrix product `a @ b` (torch.mm): defined when `a.cols = b.rows`. -/
def mm (a b : Tensor2) : Option Tensor2 :=
  if a.cols = b.rows then
    some
      { rows := a.rows
        cols := b.cols
        data :=
          (List.range a.rows).map fun i =>
            (List.range b.cols).map fun j =>
              ((List.range a.cols).map fun k =>
                (((a.data.getD i []).getD k 0) * ((b.data.getD k []).getD j 0))).sum }
  else
    none

/-- Elementwise addition of two dense tensors of equal shape. -/
def addT (a b : Tensor2) : Option Tensor2 :=
  if a.rows = b.rows ∧ a.cols = b.cols then
    some
      { rows := a.rows
        cols := a.cols
        data :=
          (List.range a.rows).map fun i =>
            (List.range a.cols).map fun j =>
              ((a.data.getD i []).getD j 0) + ((b.data.getD i []).getD j 0) }
  else
    none

/-- Broadcast-add a bias row vector to every row of `t` (torch `out + bias`). -/
def addBias (t : Tensor2) (b : List ℚ) : Option Tensor2 :=
  if b.length = t.cols then
    some
      { rows := t.rows
        cols := t.cols
        data :=
          (List.range t.rows).map fun i =>
            (List.range t.cols).map fun j =>
              ((t.data.getD i []).getD j 0) + b.getD j 0 }
  else
    none

/-- Apply a scalar function to every entry (activation layers). -/
def mapT (f : ℚ → ℚ) (t : Tensor2) : Tensor2 :=
  { rows := t.rows
    cols := t.cols
    data :=
      (List.range t.rows).map fun i =>
        (List.range t.cols).map fun j => f ((t.data.getD i []).getD j 0) }

/-- Dropout layer: identity in evaluation mode; in training mode each kept
entry is rescaled by `1/(1-p)` and each dropped entry zeroed, with the
keep/drop decisions supplied by the backend RNG `keep`. -/
def dropoutT (p : ℚ) (training : Bool) (keep : Nat → Nat → Bool) (t : Tensor2) :
    Tensor2 :=
  if training then
    { rows := t.rows
      cols := t.cols
      data :=
        (List.range t.rows).map fun i =>
          (List.range t.cols).map fun j =>
            if keep i j then ((t.data.getD i []).getD j 0) / (1 - p) else 0 }
  else
    t

/-- Densified sparse COO matrix (unchecked builder): duplicate coordinates
are summed, as torch does on coalescing. -/
def cooDense (xr xc : List Nat) (xv : List ℚ) (nrows ncols : Nat) : Tensor2 :=
  { rows := nrows
    cols := ncols
    data :=
      (List.range nrows).map fun i =>
        (List.range ncols).map fun j =>
          (((xr.zip xc).zip xv).filterMap fun e =>
            if e.1.1 = i ∧ e.1.2 = j then some e.2 else none).sum }

/-- `torch.sparse_coo_tensor(indices, values, size)` followed by
densification: the backend rejects mismatched index/value lengths and any
coordinate outside the declared `size`. -/
def cooToDense (xr xc : List Nat) (xv : List ℚ) (nrows ncols : Nat) :
    Option Tensor2 :=
  if xr.length = xv.length ∧ xc.length = xv.length ∧
      xr.all (· < nrows) ∧ xc.all (· < ncols) then
    some (cooDense xr xc xv nrows ncols)
  else
    none

/-- The closed activation table `non_linearities = {"relu": .., "tanh": ..}`. -/
inductive ActKind where
  | relu
  | tanh
  deriving DecidableEq, Repr

/-- Keys of the `non_linearities` dict, in source order. -/
def nonLinKeys : List String := ["relu", "tanh"]

/-- Dict lookup `non_linearities[s]`: a missing key raises `KeyError`. -/
def lookupNonLin (s : String) : Except PyError ActKind :=
  if s = "relu" then .ok .relu
  else if s = "tanh" then .ok .tanh
  else .error .keyError

/-- Scalar activation semantics supplied by the tensor backend
(`nn.ReLU`/`nn.Tanh` are library code, outside this repository). -/
structure Backend where
  act : ActKind → ℚ → ℚ

/-- Arguments of `ModelConfig.__init__`, with the Python default values. -/
structure ConfigArgs where
  input_size : Nat
  hidden_sizes : List Nat
  output_size : Nat
  mapping : Option (List Nat) := none
  hidden_dropout : ℚ := 0
  last_dropout : ℚ := 0
  weight_decay : ℚ := 0
  input_size_freq : Option Nat := none
  tail_hidden_size : Option Nat := none
  non_linearity : String := "relu"
  last_non_linearity : String := "relu"
  deriving DecidableEq, Repr

/-- A constructed `ModelConfig` object (fields as assigned by `__init__`;
`input_size_freq` is the derived value, never `None`). -/
structure ModelConfig where
  mapping : Option (List Nat)
  input_size : Nat
  hidden_sizes : List Nat
  output_size : Nat
  hidden_dropout : ℚ
  last_dropout : ℚ
  last_non_linearity : String
  weight_decay : ℚ
  tail_hidden_size : Option Nat
  non_linearity : String
  input_size_freq : Nat
  deriving DecidableEq, Repr

/-- `assert input_size == mapping.shape[0]`, vacuous when `mapping is None`. -/
def mappingLenOk : Option (List Nat) → Nat → Bool
  | none, _ => true
  | some m, n => n == m.length

/-- The record built by `ModelConfig.__init__` once all asserts pass,
with `freq` the derived `input_size_freq`. -/
def configOf (a : ConfigArgs) (freq : Nat) : ModelConfig :=
  { mapping := a.mapping
    input_size := a.input_size
    hidden_sizes := a.hidden_sizes
    output_size := a.output_size
    hidden_dropout := a.hidden_dropout
    last_dropout := a.last_dropout
    last_non_linearity := a.last_non_linearity
    weight_decay := a.weight_decay
    tail_hidden_size := a.tail_hidden_size
    non_linearity := a.non_linearity
    input_size_freq := freq }

/-- `ModelConfig.__init__` (models.py lines 44-75): asserts the
`non_linearity` key, then the mapping length, then derives
`input_size_freq` (asserting `input_size_freq <= input_size` only when the
argument was provided).  Note the source never checks
`last_non_linearity`. -/
def mkModelConfig (a : ConfigArgs) : Except PyError ModelConfig :=
  if ¬ nonLinKeys.contains a.non_linearity then .error .assertionError
  else if ¬ mappingLenOk a.mapping a.input_size then .error .assertionError
  else
    match a.input_size_freq with
    | none => .ok (configOf a a.input_size)
    | some f =>
      if f ≤ a.input_size then .ok (configOf a f)
      else .error .assertionError

/-- Externally supplied learnable-parameter values (the source draws them
from the backend RNG at construction; a "fixed parameter assignment" is one
value of this record). -/
structure TorchParams where
  freqW : Nat → Nat → ℚ
  freqB : Nat → ℚ
  rareW : Nat → Nat → ℚ
  rareB : Nat → ℚ
  rareProjW : Nat → Nat → ℚ
  interW : Nat → Nat → Nat → ℚ
  interB : Nat → Nat → ℚ
  lastW : Nat → Nat → ℚ
  lastB : Nat → ℚ

/-- Materialize an `inF × outF` weight matrix from a parameter source. -/
def mkWeight (f : Nat → Nat → ℚ) (inF outF : Nat) : Tensor2 :=
  { rows := inF
    cols := outF
    data := (List.range inF).map fun i => (List.range outF).map fun j => f i j }

/-- Materialize a length-`n` bias vector from a parameter source. -/
def mkBias (f : Nat → ℚ) (n : Nat) : List ℚ :=
  (List.range n).map f

/-- `SparseLinear`: weight of shape `[in_features, out_features]`
(`torch.randn(in_features, out_features)`), optional bias. -/
structure SparseLinear where
  weight : Tensor2
  bias : Option (List ℚ)
  deriving DecidableEq, Repr

/-- `SparseLinear.forward`: `torch.mm(input, weight)` plus bias when
present (models.py lines 32-36). -/
def SparseLinear.forward (l : SparseLinear) (input : Tensor2) : Option Tensor2 :=
  (mm input l.weight).bind fun out =>
    match l.bias with
    | some b => addBias out b
    | none => some out

/-- `nn.Linear`: we store the weight in its `[in_features, out_features]`
orientation (the transpose of torch's internal layout; parameters are
external inputs, so this is only a choice of parametrization), plus an
optional bias. -/
structure DenseLinear where
  weight : Tensor2
  bias : Option (List ℚ)
  deriving DecidableEq, Repr

/-- `nn.Linear` forward: `x @ W + b`. -/
def DenseLinear.forward (l : DenseLinear) (input : Tensor2) : Option Tensor2 :=
  (mm input l.weight).bind fun out =>
    match l.bias with
    | some b => addBias out b
    | none => some out

/-- `SparseInputNet` module state: `input_splits`, the frequent branch, and
the optional rare branch `nn.Sequential(SparseLinear, nn.Linear)`. -/
structure SparseInputNet where
  input_splits : List Nat
  net_freq : SparseLinear
  net_rare : Option (SparseLinear × DenseLinear)
  deriving DecidableEq, Repr

/-- `SparseInputNet.__init__` (models.py lines 78-92).
`input_splits = [conf.input_size_freq, conf.input_size - conf.input_size_freq]`
(Nat subtraction agrees with Python here because `ModelConfig` asserted
`input_size_freq <= input_size`); `conf.hidden_sizes[0]` raises `IndexError`
on an empty list.  When `input_splits[1] != 0` the source builds the rare
branch reading `self.tail_hidden_size` and `self.hidden_sizes` (lines 87 and
91) — attributes that are never assigned on the module (they live on
`conf`) — so that path raises `AttributeError`. -/
def mkSparseInputNet (conf : ModelConfig) (p : TorchParams) :
    Except PyError SparseInputNet :=
  match conf.hidden_sizes with
  | [] => .error .indexError
  | h0 :: _ =>
    let split0 := conf.input_size_freq
    let split1 := conf.input_size - conf.input_size_freq
    let netFreq : SparseLinear :=
      { weight := mkWeight p.freqW split0 h0, bias := some (mkBias p.freqB h0) }
    if split1 = 0 then
      .ok { input_splits := [split0, split1], net_freq := netFreq, net_rare := none }
    else
      .error .attributeError

/-- The coordinate entries kept by a boolean column mask: the source's
`x_ind[:, mask], x_data[mask]` for `mask` a predicate on the column row of
`x_ind`. -/
def maskEntries (keepIf : Nat → Bool) (xr xc : List Nat) (xv : List ℚ) :
    List ((Nat × Nat) × ℚ) :=
  ((xr.zip xc).zip xv).filter fun e => keepIf e.1.2

/-- `SparseInputNet.forward` (models.py lines 94-109).  With no rare split,
one COO matrix of size `[num_rows, input_splits[0]]` is built and fed to
`net_freq`.  Otherwise the entries are split by `x_ind[1] < input_splits[0]`;
note the source passes the rare entries' column indices UNCHANGED to a
matrix of width `input_splits[1]`.  Calling the absent rare branch
(`net_rare = None`) raises, modelled as `none`. -/
def SparseInputNet.forward (net : SparseInputNet) (xr xc : List Nat)
    (xv : List ℚ) (numRows : Nat) : Option Tensor2 :=
  let split0 := net.input_splits.getD 0 0
  let split1 := net.input_splits.getD 1 0
  if split1 = 0 then
    (cooToDense xr xc xv numRows split0).bind net.net_freq.forward
  else
    let freqE := maskEntries (fun c => decide (c < split0)) xr xc xv
    let rareE := maskEntries (fun c => decide (¬ c < split0)) xr xc xv
    do
      let Xfreq ← cooToDense (freqE.map fun e => e.1.1) (freqE.map fun e => e.1.2)
        (freqE.map fun e => e.2) numRows split0
      let Xrare ← cooToDense (rareE.map fun e => e.1.1) (rareE.map fun e => e.1.2)
        (rareE.map fun e => e.2) numRows split1
      let hf ← net.net_freq.forward Xfreq
      match net.net_rare with
      | none => none
      | some nr => do
        let h1 ← nr.1.forward Xrare
        let h2 ← nr.2.forward h1
        addT hf h2

/-- One `(nn.ReLU, nn.Dropout, nn.Linear)` block of `IntermediateNet`
(the source hardcodes `nn.ReLU()` at line 117). -/
structure InterBlock where
  dropout_p : ℚ
  linear : DenseLinear
  deriving DecidableEq, Repr

/-- Block forward: ReLU, then dropout, then the dense linear layer. -/
def InterBlock.forward (b : InterBlock) (be : Backend) (training : Bool)
    (keep : Nat → Nat → Bool) (x : Tensor2) : Option Tensor2 :=
  b.linear.forward (dropoutT b.dropout_p training keep (mapT (be.act .relu) x))

/-- `IntermediateNet` module state: the owned block sequence `self.net`. -/
structure IntermediateNet where
  net : List InterBlock
  deriving DecidableEq, Repr

/-- `IntermediateNet.__init__` (models.py lines 112-120): starts from an
empty `nn.Sequential`; the loop body (executed once per consecutive
`hidden_sizes` pair) reads `self.intermediate_net`, an attribute that is
never assigned (the field is `self.net`), so the first iteration raises
`AttributeError`.  With fewer than two hidden sizes the loop body never
runs and the empty sequence is kept. -/
def mkIntermediateNet (conf : ModelConfig) (_p : TorchParams) :
    Except PyError IntermediateNet :=
  if conf.hidden_sizes.length - 1 = 0 then .ok { net := [] }
  else .error .attributeError

/-- Run the blocks left to right, giving block `i` its own RNG slice. -/
def runBlocks (be : Backend) (training : Bool) (keep : Nat → Nat → Nat → Bool)
    (i : Nat) : List InterBlock → Tensor2 → Option Tensor2
  | [], h => some h
  | b :: bs, h => (b.forward be training (keep i) h).bind
      (runBlocks be training keep (i + 1) bs)

/-- `IntermediateNet.forward`: sequential application of the owned blocks. -/
def IntermediateNet.forward (n : IntermediateNet) (be : Backend)
    (training : Bool) (keep : Nat → Nat → Nat → Bool) (h : Tensor2) :
    Option Tensor2 :=
  runBlocks be training keep 0 n.net h

/-- `LastNet` module state: the selected activation kind, dropout
probability, and final dense layer. -/
structure LastNet where
  act : ActKind
  dropout_p : ℚ
  linear : DenseLinear
  deriving DecidableEq, Repr

/-- `LastNet.__init__` (models.py lines 125-132): dict lookup
`non_linearities[conf.last_non_linearity]` (KeyError on unknown name), then
`nn.Linear(conf.hidden_sizes[-1], conf.output_size)` (IndexError on an
empty list). -/
def mkLastNet (conf : ModelConfig) (p : TorchParams) : Except PyError LastNet :=
  match lookupNonLin conf.last_non_linearity with
  | .error e => .error e
  | .ok k =>
    match conf.hidden_sizes.getLast? with
    | none => .error .indexError
    | some hl =>
      .ok { act := k
            dropout_p := conf.last_dropout
            linear := { weight := mkWeight p.lastW hl conf.output_size
                        bias := some (mkBias p.lastB conf.output_size) } }

/-- `LastNet.forward`: activation, dropout, dense linear. -/
def LastNet.forward (l : LastNet) (be : Backend) (training : Bool)
    (keep : Nat → Nat → Bool) (h : Tensor2) : Option Tensor2 :=
  l.linear.forward (dropoutT l.dropout_p training keep (mapT (be.act l.act) h))

/-- `SparseFFN` module state: the three owned stages. -/
structure SparseFFN where
  input_net : SparseInputNet
  inter : IntermediateNet
  last : LastNet
  deriving DecidableEq, Repr

/-- `SparseFFN.__init__` (models.py lines 137-144): builds `SparseInputNet`,
then `IntermediateNet`, then `LastNet` (the `nn.Sequential` arguments are
evaluated left to right); any constructor failure propagates. -/
def mkSparseFFN (conf : ModelConfig) (p : TorchParams) :
    Except PyError SparseFFN := do
  let inp ← mkSparseInputNet conf p
  let itr ← mkIntermediateNet conf p
  let lst ← mkLastNet conf p
  return { input_net := inp, inter := itr, last := lst }

/-- `SparseFFN.forward` (models.py lines 146-148):
`self.net(self.input_net(x_ind, x_data, num_rows))` with
`self.net = nn.Sequential(IntermediateNet(conf), LastNet(conf))`. -/
def SparseFFN.forward (m : SparseFFN) (be : Backend) (training : Bool)
    (keepInter : Nat → Nat → Nat → Bool) (keepLast : Nat → Nat → Bool)
    (xr xc : List Nat) (xv : List ℚ) (numRows : Nat) : Option Tensor2 := do
  let h ← m.input_net.forward xr xc xv numRows
  let h2 ← m.inter.forward be training keepInter h
  m.last.forward be training keepLast h2

/-! Concrete instances used to evaluate the development at specific
inputs (the parameter assignment is all-ones, the backend activation a
simple computable stand-in; the theorems themselves quantify over both). -/

/-- An all-ones parameter assignment. -/
def p0 : TorchParams :=
  { freqW := fun _ _ => 1
    freqB := fun _ => 1
    rareW := fun _ _ => 1
    rareB := fun _ => 1
    rareProjW := fun _ _ => 1
    interW := fun _ _ _ => 1
    interB := fun _ _ => 1
    lastW := fun _ _ => 1
    lastB := fun _ => 1 }

/-- A concrete computable backend instantiation. -/
def be0 : Backend := { act := fun _ q => max q 0 }

/-- An all-keep dropout RNG for the intermediate blocks. -/
def keep3 : Nat → Nat → Nat → Bool := fun _ _ _ => true

/-- An all-drop dropout RNG for the intermediate blocks. -/
def drop3 : Nat → Nat → Nat → Bool := fun _ _ _ => false

/-- An all-keep dropout RNG for the last block. -/
def keep2 : Nat → Nat → Bool := fun _ _ => true

/-- An all-drop dropout RNG for the last block. -/
def drop2 : Nat → Nat → Bool := fun _ _ => false

/-- Constructor arguments with no rare split: `input_size = 3`,
`hidden_sizes = [2]`, `output_size = 2`. -/
def argsNoRare : ConfigArgs :=
  { input_size := 3, hidden_sizes := [2], output_size := 2 }

/-- The config built from `argsNoRare` (derived `input_size_freq = 3`). -/
def cNoRare : ModelConfig := configOf argsNoRare 3

/-- The `SparseFFN` built from `cNoRare` with parameters `p0`. -/
def ffn0 : SparseFFN :=
  { input_net :=
      { input_splits := [3, 0]
        net_freq :=
          { weight := { rows := 3, cols := 2, data := [[1, 1], [1, 1], [1, 1]] }
            bias := some [1, 1] }
        net_rare := none }
    inter := { net := [] }
    last :=
      { act := .relu
        dropout_p := 0
        linear :=
          { weight := { rows := 2, cols := 2, data := [[1, 1], [1, 1]] }
            bias := some [1, 1] } } }

/-- The worked example of the spec: `input_size = 10`,
`input_size_freq = 6`, `tail_hidden_size = 4`, `hidden_sizes = [8]`,
`output_size = 2`. -/
def argsSplit : ConfigArgs :=
  { input_size := 10, hidden_sizes := [8], output_size := 2,
    input_size_freq := some 6, tail_hidden_size := some 4 }

/-- The config built from `argsSplit`. -/
def cSplit : ModelConfig := configOf argsSplit 6

/-- A `SparseInputNet` with `input_splits = [6, 4]` as the spec example
requires (hand-assembled, since `mkSparseInputNet` cannot build a rare
branch), with a width-4 rare branch and bottleneck 4. -/
def rareNetC1 : SparseInputNet :=
  { input_splits := [6, 4]
    net_freq :=
      { weight := mkWeight (fun _ _ => 1) 6 8, bias := some (mkBias (fun _ => 1) 8) }
    net_rare :=
      some ({ weight := mkWeight (fun _ _ => 1) 4 4, bias := none },
            { weight := mkWeight (fun _ _ => 1) 4 8, bias := none }) }

/-- Arguments with two hidden layers: `hidden_sizes = [8, 8]`. -/
def argsDeep : ConfigArgs :=
  { input_size := 4, hidden_sizes := [8, 8], output_size := 2 }

/-- The config built from `argsDeep`. -/
def confDeep : ModelConfig := configOf argsDeep 4

/-- Arguments whose `last_non_linearity` is not an enumerated kind. -/
def argsBadLast : ConfigArgs :=
  { input_size := 4, hidden_sizes := [3], output_size := 2,
    last_non_linearity := "sigmoid" }

/-- Replace only the `mapping` argument of a `ConfigArgs`. -/
def setMapping (a : ConfigArgs) (m : Option (List Nat)) : ConfigArgs :=
  { a with mapping := m }

/-- Boolean failure test for a Python constructor call. -/
def isErr {α : Type} : Except PyError α → Bool
  | .error _ => true
  | .ok _ => false

/-- Arguments whose `non_linearity` is not an enumerated kind. -/
def argsBadNonLin : ConfigArgs :=
  { input_size := 4, hidden_sizes := [3], output_size := 2,
    non_linearity := "selu" }

/-- The config built from `argsBadLast` (construction succeeds although
`last_non_linearity` is invalid). -/
def cBadLast : ModelConfig := configOf argsBadLast 4

/-- The spec's failing-mapping example: a length-9 mapping with
`input_size = 10`. -/
def argsMapBad : ConfigArgs :=
  { input_size := 10, hidden_sizes := [3], output_size := 2,
    mapping := some (List.range 9) }

/-- `argsNoRare` with a (valid, length-3) column-reordering mapping. -/
def cMap1 : ModelConfig := configOf (setMapping argsNoRare (some [0, 1, 2])) 3

/-- A small concrete dense tensor. -/
def t0 : Tensor2 := { rows := 1, cols := 2, data := [[1, 2]] }

/-! Shape lemmas for the tensor operations. -/

theorem mm_spec (a b : Tensor2) (h : a.cols = b.rows) :
    ∃ t, mm a b = some t ∧ t.rows = a.rows ∧ t.cols = b.cols := by
  rw [mm, if_pos h]
  exact ⟨_, rfl, rfl, rfl⟩

theorem addBias_spec (t : Tensor2) (b : List ℚ) (h : b.length = t.cols) :
    ∃ u, addBias t b = some u ∧ u.rows = t.rows ∧ u.cols = t.cols := by
  rw [addBias, if_pos h]
  exact ⟨_, rfl, rfl, rfl⟩

@[simp] theorem mapT_rows (f : ℚ → ℚ) (t : Tensor2) : (mapT f t).rows = t.rows := rfl

@[simp] theorem mapT_cols (f : ℚ → ℚ) (t : Tensor2) : (mapT f t).cols = t.cols := rfl

@[simp] theorem dropoutT_rows (p : ℚ) (tr : Bool) (k : Nat → Nat → Bool)
    (t : Tensor2) : (dropoutT p tr k t).rows = t.rows := by
  unfold dropoutT; split <;> rfl

@[simp] theorem dropoutT_cols (p : ℚ) (tr : Bool) (k : Nat → Nat → Bool)
    (t : Tensor2) : (dropoutT p tr k t).cols = t.cols := by
  unfold dropoutT; split <;> rfl

/-- In evaluation mode dropout is the identity. -/
theorem dropoutT_eval (p : ℚ) (k : Nat → Nat → Bool) (t : Tensor2) :
    dropoutT p false k t = t := rfl

theorem cooToDense_spec (xr xc : List Nat) (xv : List ℚ) (nrows ncols : Nat)
    (hlr : xr.length = xv.length) (hlc : xc.length = xv.length)
    (hrr : ∀ i ∈ xr, i < nrows) (hcc : ∀ c ∈ xc, c < ncols) :
    cooToDense xr xc xv nrows ncols = some (cooDense xr xc xv nrows ncols) := by
  rw [cooToDense, if_pos]
  refine ⟨hlr, hlc, ?_, ?_⟩ <;> simp [List.all_eq_true] <;> assumption

@[simp] theorem cooDense_rows (xr xc : List Nat) (xv : List ℚ) (nr nc : Nat) :
    (cooDense xr xc xv nr nc).rows = nr := rfl

@[simp] theorem cooDense_cols (xr xc : List Nat) (xv : List ℚ) (nr nc : Nat) :
    (cooDense xr xc xv nr nc).cols = nc := rfl

@[simp] theorem mkWeight_rows (f : Nat → Nat → ℚ) (i o : Nat) :
    (mkWeight f i o).rows = i := rfl

@[simp] theorem mkWeight_cols (f : Nat → Nat → ℚ) (i o : Nat) :
    (mkWeight f i o).cols = o := rfl

@[simp] theorem mkBias_length (f : Nat → ℚ) (n : Nat) :
    (mkBias f n).length = n := by simp [mkBias]

theorem sparseLinear_spec (l : SparseLinear) (x : Tensor2)
    (h : x.cols = l.weight.rows)
    (hb : ∀ b, l.bias = some b → b.length = l.weight.cols) :
    ∃ y, l.forward x = some y ∧ y.rows = x.rows ∧ y.cols = l.weight.cols := by
  obtain ⟨t, hmm, htr, htc⟩ := mm_spec x l.weight h
  cases hbias : l.bias with
  | none => exact ⟨t, by simp [SparseLinear.forward, hmm, hbias], htr, htc⟩
  | some b =>
    obtain ⟨u, hab, hur, huc⟩ := addBias_spec t b (by rw [hb b hbias, htc])
    exact ⟨u, by simp [SparseLinear.forward, hmm, hbias, hab],
      by rw [hur, htr], by rw [huc, htc]⟩

theorem denseLinear_spec (l : DenseLinear) (x : Tensor2)
    (h : x.cols = l.weight.rows)
    (hb : ∀ b, l.bias = some b → b.length = l.weight.cols) :
    ∃ y, l.forward x = some y ∧ y.rows = x.rows ∧ y.cols = l.weight.cols := by
  obtain ⟨t, hmm, htr, htc⟩ := mm_spec x l.weight h
  cases hbias : l.bias with
  | none => exact ⟨t, by simp [DenseLinear.forward, hmm, hbias], htr, htc⟩
  | some b =>
    obtain ⟨u, hab, hur, huc⟩ := addBias_spec t b (by rw [hb b hbias, htc])
    exact ⟨u, by simp [DenseLinear.forward, hmm, hbias, hab],
      by rw [hur, htr], by rw [huc, htc]⟩

theorem lastNet_spec (l : LastNet) (be : Backend) (tr : Bool)
    (k : Nat → Nat → Bool) (h : Tensor2)
    (hc : h.cols = l.linear.weight.rows)
    (hb : ∀ b, l.linear.bias = some b → b.length = l.linear.weight.cols) :
    ∃ y, l.forward be tr k h = some y ∧ y.rows = h.rows ∧
      y.cols = l.linear.weight.cols := by
  obtain ⟨y, hy, hyr, hyc⟩ := denseLinear_spec l.linear
    (dropoutT l.dropout_p tr k (mapT (be.act l.act) h)) (by simpa using hc) hb
  exact ⟨y, hy, by simpa using hyr, hyc⟩

/-- Inversion for a successful `ModelConfig` construction: the result is
`configOf` at the derived `input_size_freq`. -/
theorem mkModelConfig_ok_inv (a : ConfigArgs) (c : ModelConfig)
    (h : mkModelConfig a = .ok c) :
    c = configOf a (a.input_size_freq.getD a.input_size) := by
  unfold mkModelConfig at h
  split at h
  · cases h
  · split at h
    · cases h
    · split at h
      next heq => cases h; simp [heq]
      next f heq =>
        split at h
        · cases h; simp [heq]
        · cases h

/-- Inversion for a successful `SparseInputNet` construction: the hidden
sizes are nonempty, the rare width is zero (otherwise the constructor
raises), and the module is the frequent branch alone. -/
theorem mkSparseInputNet_ok_inv (conf : ModelConfig) (p : TorchParams)
    (net : SparseInputNet) (h : mkSparseInputNet conf p = .ok net) :
    ∃ h0 tl, conf.hidden_sizes = h0 :: tl ∧
      conf.input_size - conf.input_size_freq = 0 ∧
      net = { input_splits := [conf.input_size_freq, 0]
              net_freq := { weight := mkWeight p.freqW conf.input_size_freq h0
                            bias := some (mkBias p.freqB h0) }
              net_rare := none } := by
  unfold mkSparseInputNet at h
  split at h
  · cases h
  next h0 tl hhs =>
    dsimp only at h
    split at h
    next hz =>
      cases h
      exact ⟨h0, tl, hhs, hz, by rw [hz]⟩
    next => cases h

/-- Inversion for a successful `IntermediateNet` construction: at most one
hidden size, and the block list is empty. -/
theorem mkIntermediateNet_ok_inv (conf : ModelConfig) (p : TorchParams)
    (itr : IntermediateNet) (h : mkIntermediateNet conf p = .ok itr) :
    conf.hidden_sizes.length - 1 = 0 ∧ itr = { net := [] } := by
  unfold mkIntermediateNet at h
  split at h
  next hz => cases h; exact ⟨hz, rfl⟩
  next => cases h

/-- Inversion for a successful `LastNet` construction. -/
theorem mkLastNet_ok_inv (conf : ModelConfig) (p : TorchParams)
    (lst : LastNet) (h : mkLastNet conf p = .ok lst) :
    ∃ k hl, lookupNonLin conf.last_non_linearity = .ok k ∧
      conf.hidden_sizes.getLast? = some hl ∧
      lst = { act := k
              dropout_p := conf.last_dropout
              linear := { weight := mkWeight p.lastW hl conf.output_size
                          bias := some (mkBias p.lastB conf.output_size) } } := by
  unfold mkLastNet at h
  split at h
  next e heq => cases h
  next k heq =>
    split at h
    next => cases h
    next hl heq2 => cases h; exact ⟨k, hl, heq, heq2, rfl⟩

/-- Inversion for a successful `SparseFFN` construction: all three stage
constructors succeeded on the model's own stages. -/
theorem mkSparseFFN_ok_inv (conf : ModelConfig) (p : TorchParams)
    (m : SparseFFN) (h : mkSparseFFN conf p = .ok m) :
    mkSparseInputNet conf p = .ok m.input_net ∧
    mkIntermediateNet conf p = .ok m.inter ∧
    mkLastNet conf p = .ok m.last := by
  unfold mkSparseFFN at h
  cases hi : mkSparseInputNet conf p with
  | error e => rw [hi] at h; cases h
  | ok inp =>
    rw [hi] at h
    cases hj : mkIntermediateNet conf p with
    | error e => rw [hj] at h; cases h
    | ok itr =>
      rw [hj] at h
      cases hk : mkLastNet conf p with
      | error e => rw [hk] at h; cases h
      | ok lst => rw [hk] at h; cases h; exact ⟨rfl, rfl, rfl⟩

/-- Claim C1: the forward split is exhaustive and disjoint and Xfreq keeps
its columns, but the source does NOT shift the rare columns down by
`input_splits[0]`: at the spec's worked example (`input_splits = [6, 4]`,
columns {2,5,7,9}) the columns handed to the rare sparse matrix are
`[7, 9]` — not the required `[1, 3]` — and since a width-4 sparse matrix
cannot hold column index 7, the forward call fails instead of producing
the shifted partition. -/
theorem C1_rare_columns_unshifted :
    ((maskEntries (fun c => decide (¬ c < 6)) [0, 1, 2, 0] [2, 5, 7, 9]
        ([1, 1, 1, 1] : List ℚ)).map fun e => e.1.2) = [7, 9] ∧
    SparseInputNet.forward rareNetC1 [0, 1, 2, 0] [2, 5, 7, 9]
      ([1, 1, 1, 1] : List ℚ) 3 = none :=
  ⟨rfl, rfl⟩

/-- Claim C2: with `input_size_freq < input_size` the `SparseInputNet`
constructor does not succeed: the `ModelConfig` is built fine, but the
rare-branch construction reads the never-assigned attribute
`self.tail_hidden_size` (models.py line 87) and raises
`AttributeError`. -/
theorem C2_rare_branch_attribute_error :
    mkModelConfig argsSplit = .ok cSplit ∧
    mkSparseInputNet cSplit p0 = .error .attributeError :=
  ⟨rfl, rfl⟩

/-- Claim C3: with `hidden_sizes` of length 2 the `IntermediateNet`
constructor does not build any block: the loop body reads the
never-assigned attribute `self.intermediate_net` (models.py line 116) and
raises `AttributeError`. -/
theorem C3_intermediate_attribute_error :
    mkModelConfig argsDeep = .ok confDeep ∧
    confDeep.hidden_sizes.length = 2 ∧
    mkIntermediateNet confDeep p0 = .error .attributeError :=
  ⟨rfl, rfl, rfl⟩

/-- Claim C4 counterexample: a `ModelConfig` whose `last_non_linearity` is
`"sigmoid"` — outside {relu, tanh} — constructs successfully, so the claim
that both enumerated-value checks happen at `ModelConfig` construction
time is false. -/
theorem C4_counterexample :
    nonLinKeys.contains argsBadLast.last_non_linearity = false ∧
    mkModelConfig argsBadLast = .ok cBadLast :=
  ⟨rfl, rfl⟩

/-- Claim C4 (amended): `non_linearity` outside {relu, tanh} fails eagerly
at `ModelConfig` construction with an AssertionError; `last_non_linearity`
is not checked there — an invalid value only fails later, when `LastNet`
is constructed (KeyError from the `non_linearities` dict lookup). -/
theorem C4_activation_checks (a : ConfigArgs) (c : ModelConfig)
    (p : TorchParams)
    (h1 : nonLinKeys.contains a.non_linearity = false)
    (h2 : nonLinKeys.contains c.last_non_linearity = false) :
    mkModelConfig a = .error .assertionError ∧
    mkLastNet c p = .error .keyError := by
  constructor
  · have hh : ¬ (nonLinKeys.contains a.non_linearity = true) := by simpa using h1
    rw [mkModelConfig, if_pos hh]
  · have hr : c.last_non_linearity ≠ "relu" ∧ c.last_non_linearity ≠ "tanh" := by
      simpa [nonLinKeys] using h2
    unfold mkLastNet lookupNonLin
    rw [if_neg hr.1, if_neg hr.2]

/-- Witness for C4: concrete instantiation at `non_linearity = "selu"` and
`last_non_linearity = "sigmoid"`. -/
theorem C4_activation_checks_witness :
    mkModelConfig argsBadNonLin = .error .assertionError ∧
    mkLastNet cBadLast p0 = .error .keyError :=
  C4_activation_checks argsBadNonLin cBadLast p0 rfl rfl

/-- Claim C5: with both activation names valid, `ModelConfig` construction
fails exactly when a provided mapping's length differs from `input_size`
or a provided `input_size_freq` exceeds `input_size`; an omitted
`input_size_freq` is derived as `input_size` with no size check
(`Option.getD` below covers both the provided and the derived case). -/
theorem C5_config_validation (a : ConfigArgs)
    (h1 : nonLinKeys.contains a.non_linearity = true)
    (h2 : nonLinKeys.contains a.last_non_linearity = true) :
    (isErr (mkModelConfig a) = true ↔
      (∃ m, a.mapping = some m ∧ m.length ≠ a.input_size) ∨
      (∃ f, a.input_size_freq = some f ∧ a.input_size < f)) ∧
    (∀ c, mkModelConfig a = .ok c →
      c.input_size_freq = a.input_size_freq.getD a.input_size) := by
  constructor
  · unfold mkModelConfig
    rw [if_neg (not_not_intro h1)]
    by_cases hm : mappingLenOk a.mapping a.input_size = true
    · rw [if_neg (not_not_intro hm)]
      have hmap : ∀ m, a.mapping = some m → m.length = a.input_size := by
        intro m hmm
        rw [hmm] at hm
        have hx : a.input_size = m.length := by simpa [mappingLenOk] using hm
        exact hx.symm
      cases hf : a.input_size_freq with
      | none =>
        dsimp only
        refine ⟨fun h => Bool.noConfusion h, ?_⟩
        rintro (⟨m, hmm, hlen⟩ | ⟨f, hff, _⟩)
        · exact absurd (hmap m hmm) hlen
        · cases hff
      | some f =>
        dsimp only
        by_cases hle : f ≤ a.input_size
        · rw [if_pos hle]
          refine ⟨fun h => Bool.noConfusion h, ?_⟩
          rintro (⟨m, hmm, hlen⟩ | ⟨f', hff, hlt⟩)
          · exact absurd (hmap m hmm) hlen
          · cases hff; exact absurd hlt (not_lt.mpr hle)
        · rw [if_neg hle]
          exact ⟨fun _ => .inr ⟨f, rfl, not_le.mp hle⟩, fun _ => rfl⟩
    · rw [if_pos hm]
      refine ⟨fun _ => .inl ?_, fun _ => rfl⟩
      cases hmo : a.mapping with
      | none =>
        rw [hmo] at hm
        exact absurd rfl hm
      | some m =>
        refine ⟨m, rfl, fun hlen => hm ?_⟩
        rw [hmo]
        simp [mappingLenOk, hlen]
  · intro c hc
    rw [mkModelConfig_ok_inv a c hc]
    rfl

/-- Witness for C5: the spec's failing example, a length-9 mapping with
`input_size = 10` (both activation names valid). -/
theorem C5_config_validation_witness :
    (isErr (mkModelConfig argsMapBad) = true ↔
      (∃ m, argsMapBad.mapping = some m ∧ m.length ≠ argsMapBad.input_size) ∨
      (∃ f, argsMapBad.input_size_freq = some f ∧ argsMapBad.input_size < f)) ∧
    (∀ c, mkModelConfig argsMapBad = .ok c →
      c.input_size_freq = argsMapBad.input_size_freq.getD argsMapBad.input_size) :=
  C5_config_validation argsMapBad rfl rfl

/-- Claim C6: with `input_size_freq = input_size` the constructed
`SparseInputNet` has no rare branch, and forward builds a single sparse
matrix of shape `[num_rows, input_splits[0]]` from the coordinates and
returns `net_freq` applied to it. -/
theorem C6_no_rare_split (conf : ModelConfig) (p : TorchParams)
    (net : SparseInputNet) (xr xc : List Nat) (xv : List ℚ) (numRows : Nat)
    (hfreq : conf.input_size_freq = conf.input_size)
    (hmk : mkSparseInputNet conf p = .ok net)
    (hlr : xr.length = xv.length) (hlc : xc.length = xv.length)
    (hrr : ∀ i ∈ xr, i < numRows) (hcc : ∀ c ∈ xc, c < conf.input_size) :
    net.net_rare = none ∧
    net.input_splits = [conf.input_size_freq, 0] ∧
    cooToDense xr xc xv numRows conf.input_size_freq
      = some (cooDense xr xc xv numRows conf.input_size_freq) ∧
    (cooDense xr xc xv numRows conf.input_size_freq).rows = numRows ∧
    (cooDense xr xc xv numRows conf.input_size_freq).cols = conf.input_size_freq ∧
    net.forward xr xc xv numRows
      = net.net_freq.forward (cooDense xr xc xv numRows conf.input_size_freq) := by
  obtain ⟨h0, tl, hhs, hz, hnet⟩ := mkSparseInputNet_ok_inv conf p net hmk
  subst hnet
  have hcoo : cooToDense xr xc xv numRows conf.input_size_freq
      = some (cooDense xr xc xv numRows conf.input_size_freq) :=
    cooToDense_spec xr xc xv numRows conf.input_size_freq hlr hlc hrr
      (fun c hcm => hfreq ▸ hcc c hcm)
  refine ⟨rfl, rfl, hcoo, rfl, rfl, ?_⟩
  unfold SparseInputNet.forward
  simp only [List.getD_cons_zero, List.getD_cons_succ]
  rw [if_pos trivial, hcoo]
  rfl

/-- Witness for C6: the no-rare-split config `cNoRare` at a concrete
two-entry sparse batch. -/
theorem C6_no_rare_split_witness :
    ffn0.input_net.net_rare = none ∧
    ffn0.input_net.input_splits = [cNoRare.input_size_freq, 0] ∧
    cooToDense [0, 1] [0, 2] [1, 1] 2 cNoRare.input_size_freq
      = some (cooDense [0, 1] [0, 2] [1, 1] 2 cNoRare.input_size_freq) ∧
    (cooDense [0, 1] [0, 2] [1, 1] 2 cNoRare.input_size_freq).rows = 2 ∧
    (cooDense [0, 1] [0, 2] [1, 1] 2 cNoRare.input_size_freq).cols
      = cNoRare.input_size_freq ∧
    ffn0.input_net.forward [0, 1] [0, 2] [1, 1] 2
      = ffn0.input_net.net_freq.forward
          (cooDense [0, 1] [0, 2] [1, 1] 2 cNoRare.input_size_freq) :=
  C6_no_rare_split cNoRare p0 ffn0.input_net [0, 1] [0, 2] [1, 1] 2
    rfl rfl rfl rfl (by decide) (by decide)

/-- Claim C7: with `hidden_sizes` of length 1 the `IntermediateNet`
constructor succeeds with an empty block sequence and its forward is the
identity. -/
theorem C7_intermediate_identity (conf : ModelConfig) (p : TorchParams)
    (be : Backend) (training : Bool) (keep : Nat → Nat → Nat → Bool)
    (H : Tensor2) (hlen : conf.hidden_sizes.length = 1) :
    mkIntermediateNet conf p = .ok { net := [] } ∧
    IntermediateNet.forward { net := [] } be training keep H = some H := by
  refine ⟨?_, rfl⟩
  unfold mkIntermediateNet
  rw [if_pos (by rw [hlen])]

/-- Witness for C7: the length-1 config `cNoRare` at a concrete tensor. -/
theorem C7_intermediate_identity_witness :
    mkIntermediateNet cNoRare p0 = .ok { net := [] } ∧
    IntermediateNet.forward { net := [] } be0 true keep3 t0 = some t0 :=
  C7_intermediate_identity cNoRare p0 be0 true keep3 t0 rfl

/-- Claim C8: for a successfully constructed `SparseFFN` and any
well-formed sparse input (any nnz count, including zero), forward equals
the composition `LastNet ∘ IntermediateNet ∘ SparseInputNet` and returns a
defined output of shape `[num_rows, output_size]`. -/
theorem C8_forward_composition (conf : ModelConfig) (p : TorchParams)
    (m : SparseFFN) (be : Backend) (training : Bool)
    (kI : Nat → Nat → Nat → Bool) (kL : Nat → Nat → Bool)
    (xr xc : List Nat) (xv : List ℚ) (numRows : Nat)
    (hmk : mkSparseFFN conf p = .ok m)
    (hlr : xr.length = xv.length) (hlc : xc.length = xv.length)
    (hrr : ∀ i ∈ xr, i < numRows) (hcc : ∀ c ∈ xc, c < conf.input_size) :
    m.forward be training kI kL xr xc xv numRows
      = (m.input_net.forward xr xc xv numRows).bind (fun h =>
          (m.inter.forward be training kI h).bind
            (m.last.forward be training kL)) ∧
    ∃ out, m.forward be training kI kL xr xc xv numRows = some out ∧
      out.rows = numRows ∧ out.cols = conf.output_size := by
  obtain ⟨inp, itr, lst⟩ := m
  obtain ⟨hi, hj, hk⟩ := mkSparseFFN_ok_inv conf p ⟨inp, itr, lst⟩ hmk
  refine ⟨rfl, ?_⟩
  obtain ⟨h0, tl, hhs, hz, hinp⟩ := mkSparseInputNet_ok_inv conf p inp hi
  obtain ⟨hlen1, hitr⟩ := mkIntermediateNet_ok_inv conf p itr hj
  obtain ⟨k, hl, hlk, hgl, hlst⟩ := mkLastNet_ok_inv conf p lst hk
  subst hinp
  subst hitr
  subst hlst
  have htl : tl = [] := by
    rw [hhs] at hlen1
    simpa using hlen1
  have hl0 : hl = h0 := by
    rw [hhs, htl] at hgl
    simp only [List.getLast?_singleton, Option.some.injEq] at hgl
    exact hgl.symm
  subst hl0
  subst htl
  have hle : conf.input_size ≤ conf.input_size_freq := Nat.sub_eq_zero_iff_le.mp hz
  have hcoo : cooToDense xr xc xv numRows conf.input_size_freq
      = some (cooDense xr xc xv numRows conf.input_size_freq) :=
    cooToDense_spec xr xc xv numRows conf.input_size_freq hlr hlc hrr
      (fun c hcm => lt_of_lt_of_le (hcc c hcm) hle)
  obtain ⟨y, hy, hyr, hyc⟩ := sparseLinear_spec
    { weight := mkWeight p.freqW conf.input_size_freq hl
      bias := some (mkBias p.freqB hl) }
    (cooDense xr xc xv numRows conf.input_size_freq) rfl
    (by intro b hb; cases hb; simp)
  obtain ⟨z, hzz, hzr, hzc⟩ := lastNet_spec
    { act := k
      dropout_p := conf.last_dropout
      linear := { weight := mkWeight p.lastW hl conf.output_size
                  bias := some (mkBias p.lastB conf.output_size) } }
    be training kL y (by rw [hyc]; rfl) (by intro b hb; cases hb; simp)
  have hstep1 : SparseInputNet.forward
      { input_splits := [conf.input_size_freq, 0]
        net_freq := { weight := mkWeight p.freqW conf.input_size_freq hl
                      bias := some (mkBias p.freqB hl) }
        net_rare := none } xr xc xv numRows = some y := by
    unfold SparseInputNet.forward
    simp only [List.getD_cons_zero, List.getD_cons_succ]
    rw [if_pos trivial, hcoo]
    exact hy
  refine ⟨z, ?_, by rw [hzr, hyr]; rfl, by rw [hzc]; rfl⟩
  show (SparseInputNet.forward _ xr xc xv numRows).bind _ = some z
  rw [hstep1]
  exact hzz

/-- Witness for C8: `ffn0` (from `cNoRare` and `p0`) at the empty sparse
batch (nnz = 0) with two rows. -/
theorem C8_forward_composition_witness :
    ffn0.forward be0 false keep3 keep2 [] [] [] 2
      = (ffn0.input_net.forward [] [] [] 2).bind (fun h =>
          (ffn0.inter.forward be0 false keep3 h).bind
            (ffn0.last.forward be0 false keep2)) ∧
    ∃ out, ffn0.forward be0 false keep3 keep2 [] [] [] 2 = some out ∧
      out.rows = 2 ∧ out.cols = cNoRare.output_size :=
  C8_forward_composition cNoRare p0 ffn0 be0 false keep3 keep2 [] [] [] 2
    rfl rfl rfl (by simp) (by simp)

/-- In evaluation mode an intermediate block ignores its dropout RNG. -/
theorem interBlock_eval_irrel (b : InterBlock) (be : Backend)
    (k k' : Nat → Nat → Bool) (h : Tensor2) :
    b.forward be false k h = b.forward be false k' h := rfl

/-- In evaluation mode the block chain ignores its dropout RNG (and its
block numbering). -/
theorem runBlocks_eval_irrel (be : Backend) (bs : List InterBlock) :
    ∀ (k k' : Nat → Nat → Nat → Bool) (i i' : Nat) (h : Tensor2),
      runBlocks be false k i bs h = runBlocks be false k' i' bs h := by
  induction bs with
  | nil => intro k k' i i' h; rfl
  | cons b bs ih =>
    intro k k' i i' h
    show (InterBlock.forward b be false (k i) h).bind _
      = (InterBlock.forward b be false (k' i') h).bind _
    rw [interBlock_eval_irrel b be (k i) (k' i') h]
    cases InterBlock.forward b be false (k' i') h with
    | none => rfl
    | some t => exact ih k k' (i + 1) (i' + 1) t

/-- Claim C9: in evaluation mode (`training = false`), with fixed
parameters (one `SparseFFN` value), forward is independent of the dropout
RNG streams, so two calls on identical input agree exactly. -/
theorem C9_eval_determinism (m : SparseFFN) (be : Backend)
    (k1I k2I : Nat → Nat → Nat → Bool) (k1L k2L : Nat → Nat → Bool)
    (xr xc : List Nat) (xv : List ℚ) (numRows : Nat) :
    m.forward be false k1I k1L xr xc xv numRows
      = m.forward be false k2I k2L xr xc xv numRows := by
  obtain ⟨inp, itr, lst⟩ := m
  show (inp.forward xr xc xv numRows).bind _
    = (inp.forward xr xc xv numRows).bind _
  cases inp.forward xr xc xv numRows with
  | none => rfl
  | some h =>
    show (IntermediateNet.forward itr be false k1I h).bind _
      = (IntermediateNet.forward itr be false k2I h).bind _
    rw [show IntermediateNet.forward itr be false k1I h
        = IntermediateNet.forward itr be false k2I h from
      runBlocks_eval_irrel be itr.net k1I k2I 0 0 h]
    cases IntermediateNet.forward itr be false k2I h with
    | none => rfl
    | some h2 => rfl

/-- `mkSparseFFN` never reads the `mapping` field of the config. -/
theorem mkSparseFFN_ignores_mapping (c : ModelConfig)
    (m1 m2 : Option (List Nat)) (p : TorchParams) :
    mkSparseFFN { c with mapping := m1 } p
      = mkSparseFFN { c with mapping := m2 } p := by
  cases c
  rfl

/-- Claim C10: the column-reordering mapping has no effect on any forward
computation: two configs built from arguments identical except for the
(possibly absent, validated) mapping store their respective mappings but
construct identical models, which compute identical outputs on every
input. -/
theorem C10_mapping_no_effect (a : ConfigArgs) (m1 m2 : Option (List Nat))
    (p : TorchParams) (c1 c2 : ModelConfig) (n1 n2 : SparseFFN)
    (be : Backend) (training : Bool) (kI : Nat → Nat → Nat → Bool)
    (kL : Nat → Nat → Bool) (xr xc : List Nat) (xv : List ℚ) (numRows : Nat)
    (h1 : mkModelConfig (setMapping a m1) = .ok c1)
    (h2 : mkModelConfig (setMapping a m2) = .ok c2)
    (hn1 : mkSparseFFN c1 p = .ok n1)
    (hn2 : mkSparseFFN c2 p = .ok n2) :
    c1.mapping = m1 ∧ c2.mapping = m2 ∧
    mkSparseFFN c1 p = mkSparseFFN c2 p ∧ n1 = n2 ∧
    n1.forward be training kI kL xr xc xv numRows
      = n2.forward be training kI kL xr xc xv numRows := by
  have e1 := mkModelConfig_ok_inv _ _ h1
  have e2 := mkModelConfig_ok_inv _ _ h2
  subst e1
  subst e2
  have key : mkSparseFFN
        (configOf (setMapping a m1)
          ((setMapping a m1).input_size_freq.getD (setMapping a m1).input_size)) p
      = mkSparseFFN
        (configOf (setMapping a m2)
          ((setMapping a m2).input_size_freq.getD (setMapping a m2).input_size)) p :=
    mkSparseFFN_ignores_mapping
      (configOf a (a.input_size_freq.getD a.input_size)) m1 m2 p
  have hnn : n1 = n2 := by
    rw [key] at hn1
    rw [hn1] at hn2
    exact (Except.ok.injEq _ _).mp hn2
  exact ⟨rfl, rfl, key, hnn, by rw [hnn]⟩

/-- Witness for C10: `argsNoRare` with mapping `[0, 1, 2]` versus no
mapping, parameters `p0`, evaluated in training mode on a two-entry
batch. -/
theorem C10_mapping_no_effect_witness :
    cMap1.mapping = some [0, 1, 2] ∧ cNoRare.mapping = none ∧
    mkSparseFFN cMap1 p0 = mkSparseFFN cNoRare p0 ∧ ffn0 = ffn0 ∧
    ffn0.forward be0 true keep3 keep2 [0, 1] [0, 2] [1, 1] 2
      = ffn0.forward be0 true keep3 keep2 [0, 1] [0, 2] [1, 1] 2 :=
  C10_mapping_no_effect argsNoRare (some [0, 1, 2]) none p0 cMap1 cNoRare
    ffn0 ffn0 be0 true keep3 keep2 [0, 1] [0, 2] [1, 1] 2 rfl rfl rfl rfl
